import Mathlib

/-!
Verification development for the YashaoXen instance orchestration core.

Every definition below is a shallow embedding of a function of the Python
source (src/src/lib and src/src/yashaoxen), translated step by step from the
code.  Randomness (random.randint) is modelled by passing the draw explicitly;
OS and Docker calls are modelled by explicit failure-injection parameters or
oracles; exceptions are modelled with Except or Option.  Definitions that come
from the specification text rather than from the source are marked
"Modelled from the spec" in their doc comment.
-/

namespace YashaoXen

/-! ## Security Profile Applier: `SecurityManager._setup_seccomp_profile`
(src/src/lib/security_manager.py, lines 95-223) -/

/-- Syscall allow-list written by `SecurityManager._setup_seccomp_profile`,
transcribed in source order, duplicates included. -/
def seccompAllowList : List String :=
  ["accept", "bind", "connect", "socket",
   "read", "write", "close", "fstat",
   "lseek", "mmap", "mprotect", "munmap",
   "brk", "rt_sigaction", "rt_sigprocmask",
   "rt_sigreturn", "ioctl", "access", "pipe",
   "select", "mremap", "sched_yield", "msync",
   "mincore", "madvise", "shmget", "shmat",
   "shmctl", "dup", "dup2", "pause", "nanosleep",
   "getitimer", "alarm", "setitimer", "getpid",
   "sendfile", "socket", "connect", "accept",
   "sendto", "recvfrom", "sendmsg", "recvmsg",
   "shutdown", "bind", "listen", "getsockname",
   "getpeername", "socketpair", "setsockopt",
   "getsockopt", "clone", "fork", "vfork",
   "execve", "exit", "wait4", "kill", "uname",
   "semget", "semop", "semctl", "shmdt",
   "msgget", "msgsnd", "msgrcv", "msgctl",
   "fcntl", "flock", "fsync", "fdatasync",
   "truncate", "ftruncate", "getcwd", "chdir",
   "fchdir", "rename", "mkdir", "rmdir",
   "creat", "link", "unlink", "symlink",
   "readlink", "chmod", "fchmod", "chown",
   "fchown", "lchown", "umask", "gettimeofday",
   "getrlimit", "getrusage", "sysinfo",
   "times", "ptrace", "getuid", "syslog",
   "getgid", "setuid", "setgid", "geteuid",
   "getegid", "setpgid", "getppid", "getpgrp",
   "setsid", "setreuid", "setregid",
   "getgroups", "setgroups", "setresuid",
   "getresuid", "setresgid", "getresgid",
   "getpgid", "setfsuid", "setfsgid", "getsid",
   "capget", "capset", "rt_sigpending",
   "rt_sigtimedwait", "rt_sigqueueinfo",
   "rt_sigsuspend", "sigaltstack",
   "utime", "mknod", "uselib", "personality",
   "ustat", "statfs", "fstatfs", "sysfs",
   "getpriority", "setpriority", "sched_setparam",
   "sched_getparam", "sched_setscheduler",
   "sched_getscheduler", "sched_get_priority_max",
   "sched_get_priority_min", "sched_rr_get_interval",
   "mlock", "munlock", "mlockall", "munlockall",
   "vhangup", "modify_ldt", "pivot_root",
   "_sysctl", "prctl", "arch_prctl", "adjtimex",
   "setrlimit", "chroot", "sync", "acct",
   "mount", "umount2", "swapon", "swapoff",
   "reboot", "sethostname", "setdomainname",
   "iopl", "ioperm", "create_module",
   "init_module", "delete_module", "get_kernel_syms",
   "query_module", "quotactl", "nfsservctl",
   "getpmsg", "putpmsg", "afs_syscall",
   "tuxcall", "security", "gettid",
   "readahead", "setxattr", "lsetxattr",
   "fsetxattr", "getxattr", "lgetxattr",
   "fgetxattr", "listxattr", "llistxattr",
   "flistxattr", "removexattr", "lremovexattr",
   "fremovexattr", "tkill", "time",
   "futex", "sched_setaffinity",
   "sched_getaffinity", "set_thread_area",
   "io_setup", "io_destroy", "io_getevents",
   "io_submit", "io_cancel", "get_thread_area",
   "lookup_dcookie", "epoll_create",
   "epoll_ctl_old", "epoll_wait_old",
   "remap_file_pages", "getdents64",
   "set_tid_address", "restart_syscall",
   "semtimedop", "fadvise64", "timer_create",
   "timer_settime", "timer_gettime",
   "timer_getoverrun", "timer_delete",
   "clock_settime", "clock_gettime",
   "clock_getres", "clock_nanosleep",
   "exit_group", "epoll_wait", "epoll_ctl",
   "tgkill", "utimes", "vserver",
   "mbind", "set_mempolicy", "get_mempolicy",
   "mq_open", "mq_unlink", "mq_timedsend",
   "mq_timedreceive", "mq_notify",
   "mq_getsetattr", "kexec_load",
   "waitid", "add_key", "request_key",
   "keyctl", "ioprio_set", "ioprio_get",
   "inotify_init", "inotify_add_watch",
   "inotify_rm_watch", "migrate_pages",
   "openat", "mkdirat", "mknodat",
   "fchownat", "futimesat", "newfstatat",
   "unlinkat", "renameat", "linkat",
   "symlinkat", "readlinkat", "fchmodat",
   "faccessat", "pselect6", "ppoll",
   "unshare", "set_robust_list",
   "get_robust_list", "splice", "tee",
   "sync_file_range", "vmsplice",
   "move_pages", "utimensat", "epoll_pwait",
   "signalfd", "timerfd_create",
   "eventfd", "fallocate", "timerfd_settime",
   "timerfd_gettime", "accept4",
   "signalfd4", "eventfd2", "epoll_create1",
   "dup3", "pipe2", "inotify_init1",
   "preadv", "pwritev", "rt_tgsigqueueinfo",
   "perf_event_open", "recvmmsg",
   "fanotify_init", "fanotify_mark",
   "prlimit64", "name_to_handle_at",
   "open_by_handle_at", "clock_adjtime",
   "syncfs", "sendmmsg", "setns",
   "getcpu", "process_vm_readv",
   "process_vm_writev", "kcmp",
   "finit_module", "sched_setattr",
   "sched_getattr", "renameat2",
   "seccomp", "getrandom", "memfd_create",
   "kexec_file_load", "bpf", "execveat",
   "userfaultfd", "membarrier", "mlock2",
   "copy_file_range", "preadv2", "pwritev2",
   "pkey_mprotect", "pkey_alloc",
   "pkey_free", "statx",
   "io_pgetevents", "rseq"]

/-- Modelled from the spec: spec section 4.3 excludes "capability escalation
syscalls" from the baseline allow-list.  These are the syscalls that change
process credentials or capabilities, load kernel code, or re-root the
filesystem or namespaces. -/
def capabilityEscalationSyscalls : List String :=
  ["setuid", "setgid", "setreuid", "setregid", "setresuid", "setresgid",
   "setgroups", "setfsuid", "setfsgid", "capset", "ptrace", "mount",
   "chroot", "pivot_root", "init_module", "finit_module", "delete_module",
   "kexec_load", "kexec_file_load", "bpf", "setns", "unshare", "reboot"]

/-- Seccomp profile rendered per container by
`SecurityManager._setup_seccomp_profile`: a fixed document, only the file path
it is written to depends on the container name. -/
structure SeccompProfile where
  defaultAction : String
  architectures : List String
  allowedSyscalls : List String
  deriving DecidableEq

/-- `SecurityManager._setup_seccomp_profile`: the profile document written for
a container; it does not depend on the container name. -/
def setupSeccompProfile (_containerName : String) : SeccompProfile :=
  { defaultAction := "SCMP_ACT_ERRNO"
    architectures := ["SCMP_ARCH_X86_64"]
    allowedSyscalls := seccompAllowList }

/-- C8 counterexample: the claim states that membership of any
capability-escalation syscall in the allowed set is false; it fails at the
concrete syscall "setuid", which is both a capability-escalation syscall and a
member of the rendered allow-list. -/
theorem seccomp_claim_false :
    ¬ (∀ s ∈ capabilityEscalationSyscalls,
        s ∉ (setupSeccompProfile "c").allowedSyscalls) := by
  intro h
  exact h "setuid" (by decide) (by decide)

/-- C8 amended: the rendered allow-list is a fixed baseline (the same document
for every container), but it does contain capability-escalation syscalls,
among them setuid, setgid, capset, ptrace, mount, chroot, init_module, bpf,
setns and unshare. -/
theorem seccomp_fixed_but_allows_escalation :
    (∀ a b : String, setupSeccompProfile a = setupSeccompProfile b) ∧
    "setuid" ∈ seccompAllowList ∧ "setgid" ∈ seccompAllowList ∧
    "capset" ∈ seccompAllowList ∧ "ptrace" ∈ seccompAllowList ∧
    "mount" ∈ seccompAllowList ∧ "chroot" ∈ seccompAllowList ∧
    "init_module" ∈ seccompAllowList ∧ "bpf" ∈ seccompAllowList ∧
    "setns" ∈ seccompAllowList ∧ "unshare" ∈ seccompAllowList :=
  ⟨fun _ _ => rfl, by decide, by decide, by decide, by decide, by decide,
   by decide, by decide, by decide, by decide, by decide⟩

/-! ## Instance Registry view: `InstanceManager.get_instance_status`
(src/src/lib/instance_manager.py, lines 67-95) -/

/-- Docker stats payload of a container, as read by the usage calculators. -/
structure DockerStats where
  cpuTotalUsage : Nat
  precpuTotalUsage : Nat
  systemCpuUsage : Nat
  presystemCpuUsage : Nat
  memUsage : Nat
  memLimit : Nat
  rxBytes : Nat
  txBytes : Nat
  deriving DecidableEq

/-- What `InstanceManager.get_instance_status` reads from a reachable
container: its status string and its stats payload. -/
structure ContainerView where
  status : String
  stats : DockerStats
  deriving DecidableEq

/-- Per-instance configuration as read back by
`ContainerManager._get_instance_config`. -/
structure InstanceConfig where
  uuid : String
  proxy : String
  dns : String
  deriving DecidableEq

/-- A usage metric in the returned status record.  The Python record is
heterogeneous: the error record holds the number 0 where the success record
holds a nested dict, so the metric value is a sum. -/
inductive MetricValue
  | num (q : ℚ)
  | mem (used limit : Nat) (percentage : ℚ)
  | net (rx tx : Nat)
  deriving DecidableEq

/-- Status record returned by `InstanceManager.get_instance_status`. -/
structure InstanceStatus where
  status : String
  uuid : Option String
  proxy : Option String
  dns : Option String
  cpuUsage : MetricValue
  memoryUsage : MetricValue
  networkUsage : MetricValue
  deriving DecidableEq

/-- `InstanceManager._calculate_cpu_usage`: per-interval CPU percentage, zero
unless both deltas are positive; its own exception handler returns zero. -/
def calculateCpuUsage (st : DockerStats) : MetricValue :=
  let cpuDelta : ℤ := (st.cpuTotalUsage : ℤ) - st.precpuTotalUsage
  let systemDelta : ℤ := (st.systemCpuUsage : ℤ) - st.presystemCpuUsage
  if 0 < systemDelta ∧ 0 < cpuDelta then
    .num ((cpuDelta : ℚ) / (systemDelta : ℚ) * 100)
  else .num 0

/-- `InstanceManager._calculate_memory_usage`: used, limit and percentage; a
zero limit raises ZeroDivisionError inside, and the local handler returns the
all-zero dict. -/
def calculateMemoryUsage (st : DockerStats) : MetricValue :=
  if st.memLimit = 0 then .mem 0 0 0
  else .mem st.memUsage st.memLimit ((st.memUsage : ℚ) / (st.memLimit : ℚ) * 100)

/-- `InstanceManager._calculate_network_usage`: eth0 byte counters. -/
def calculateNetworkUsage (st : DockerStats) : MetricValue :=
  .net st.rxBytes st.txBytes

/-- The record `InstanceManager.get_instance_status` returns from its
exception handler. -/
def errorStatus : InstanceStatus :=
  { status := "error", uuid := none, proxy := none, dns := none
    cpuUsage := .num 0, memoryUsage := .num 0, networkUsage := .num 0 }

/-- `InstanceManager.get_instance_status`: reading the container (with its
stats) or the instance configuration can fail, modelled by the two Option
arguments; any failure lands in the catch-all handler, which returns
`errorStatus` instead of re-raising. -/
def get_instance_status (container : Option ContainerView)
    (config : Option InstanceConfig) : InstanceStatus :=
  match container, config with
  | some c, some g =>
      { status := c.status
        uuid := some g.uuid
        proxy := some g.proxy
        dns := some g.dns
        cpuUsage := calculateCpuUsage c.stats
        memoryUsage := calculateMemoryUsage c.stats
        networkUsage := calculateNetworkUsage c.stats }
  | _, _ => errorStatus

/-- C10: the status query is total (it is a function into `InstanceStatus`,
never an exception), and on any failure to reach the container or read its
stats or configuration it returns the record with status "error", null
uuid/proxy/dns and zero usage metrics. -/
theorem get_instance_status_error_path (container : Option ContainerView)
    (config : Option InstanceConfig)
    (h : container = none ∨ config = none) :
    (get_instance_status container config).status = "error" ∧
    (get_instance_status container config).uuid = none ∧
    (get_instance_status container config).proxy = none ∧
    (get_instance_status container config).dns = none ∧
    (get_instance_status container config).cpuUsage = .num 0 ∧
    (get_instance_status container config).memoryUsage = .num 0 ∧
    (get_instance_status container config).networkUsage = .num 0 := by
  have hres : get_instance_status container config = errorStatus := by
    rcases h with h | h
    · subst h; cases config <;> rfl
    · subst h; cases container <;> rfl
  rw [hres]
  exact ⟨rfl, rfl, rfl, rfl, rfl, rfl, rfl⟩

/-- C10 witness: the theorem applied at a concrete failing input (container
unreachable while the configuration is present). -/
theorem get_instance_status_error_path_witness :
    (get_instance_status none (some ⟨"u", "p", "d"⟩)).status = "error" ∧
    (get_instance_status none (some ⟨"u", "p", "d"⟩)).uuid = none ∧
    (get_instance_status none (some ⟨"u", "p", "d"⟩)).proxy = none ∧
    (get_instance_status none (some ⟨"u", "p", "d"⟩)).dns = none ∧
    (get_instance_status none (some ⟨"u", "p", "d"⟩)).cpuUsage = .num 0 ∧
    (get_instance_status none (some ⟨"u", "p", "d"⟩)).memoryUsage = .num 0 ∧
    (get_instance_status none (some ⟨"u", "p", "d"⟩)).networkUsage = .num 0 :=
  get_instance_status_error_path none (some ⟨"u", "p", "d"⟩) (Or.inl rfl)

/-! ## Sandbox Lifecycle Controller: `ContainerManager.create_container`
(src/src/lib/container.py, lines 24-69) -/

/-- How the external runtime behaves on a create request for a fresh name:
both the create call and the subsequent start call may fail. -/
inductive RuntimeOutcome
  | ok
  | createFails
  | startFails
  deriving DecidableEq

/-- `ContainerManager.create_container`: first looks the name up; if a
container with that name exists it returns false and changes nothing.
Otherwise it creates and starts the container; any exception is swallowed and
reported as false (a create that fails after instantiation still leaves the
container behind, stopped). The Bool result is the only failure signal. -/
def create_container (containers : List String) (name : String)
    (runtime : RuntimeOutcome) : Bool × List String :=
  if name ∈ containers then (false, containers)
  else
    match runtime with
    | .ok => (true, containers ++ [name])
    | .createFails => (false, containers)
    | .startFails => (false, containers ++ [name])

/-- C3: after a successful create of a fresh name, a second create call with
the same name fails (returns false, the failure signal of
`create_container`), leaves the container list unchanged, and exactly one
container remains registered under that name, whatever the runtime would have
done with the second request. -/
theorem create_container_duplicate_fails (containers : List String)
    (name : String) (runtime : RuntimeOutcome)
    (h : name ∉ containers) :
    (create_container containers name .ok).1 = true ∧
    (create_container (create_container containers name .ok).2 name
        runtime).1 = false ∧
    (create_container (create_container containers name .ok).2 name
        runtime).2 = (create_container containers name .ok).2 ∧
    (create_container containers name .ok).2.count name = 1 := by
  have h1 : create_container containers name .ok =
      (true, containers ++ [name]) := by
    simp [create_container, h]
  have hmem : name ∈ containers ++ [name] := by simp
  refine ⟨by rw [h1], ?_, ?_, ?_⟩
  · rw [h1]; simp [create_container, hmem]
  · rw [h1]; simp [create_container, hmem]
  · rw [h1]
    simp [List.count_append, List.count_eq_zero.mpr h]

/-- C3 witness: the theorem applied to an empty container list and the
instance name the manager generates first. -/
theorem create_container_duplicate_fails_witness :
    (create_container [] "yashaoxen_earnapp_0" .ok).1 = true ∧
    (create_container (create_container [] "yashaoxen_earnapp_0" .ok).2
        "yashaoxen_earnapp_0" .ok).1 = false ∧
    (create_container (create_container [] "yashaoxen_earnapp_0" .ok).2
        "yashaoxen_earnapp_0" .ok).2 =
      (create_container [] "yashaoxen_earnapp_0" .ok).2 ∧
    (create_container [] "yashaoxen_earnapp_0" .ok).2.count
        "yashaoxen_earnapp_0" = 1 :=
  create_container_duplicate_fails [] "yashaoxen_earnapp_0" .ok (by decide)

/-! ## Proxy endpoint input parsing
`NetworkManager._load_proxies` (src/src/lib/network.py, lines 45-66) and
`ProxyManager._load_proxies` (src/src/yashaoxen/proxy.py, lines 17-26) -/

/-- A parsed proxy entry of the `host:port:username:password` file format. -/
structure ProxyEntry where
  host : String
  port : String
  username : String
  password : String
  deriving DecidableEq

/-- Python str.strip on the character list of a line: drop leading and
trailing whitespace. -/
def stripChars (cs : List Char) : List Char :=
  ((cs.dropWhile Char.isWhitespace).reverse.dropWhile Char.isWhitespace).reverse

/-- Python str.strip, on strings. -/
def pyStrip (s : String) : String := ⟨stripChars s.data⟩

/-- Python str.split on a single separator character: fields between
occurrences of the separator; the empty input gives one empty field. -/
def splitFields (sep : Char) : List Char → List (List Char)
  | [] => [[]]
  | c :: rest =>
    if c = sep then [] :: splitFields sep rest
    else
      match splitFields sep rest with
      | [] => [[c]]
      | f :: fs => (c :: f) :: fs

/-- One line as consumed by the loop body of `NetworkManager._load_proxies`:
the stripped line is split on ":" and unpacked into exactly four fields; any
other shape raises ValueError. -/
def parseProxyLine (line : String) : Option ProxyEntry :=
  match splitFields ':' (stripChars line.data) with
  | [h, p, u, w] => some ⟨⟨h⟩, ⟨p⟩, ⟨u⟩, ⟨w⟩⟩
  | _ => none

/-- The parsing loop of `NetworkManager._load_proxies`: entries accumulate
until a line fails to parse, at which point the exception propagates out of
the loop. -/
def parseProxyLines : List String → Option (List ProxyEntry)
  | [] => some []
  | l :: ls =>
    match parseProxyLine l, parseProxyLines ls with
    | some e, some es => some (e :: es)
    | _, _ => none

/-- `NetworkManager._load_proxies`: the whole loop runs inside one handler;
the first malformed line aborts it and the handler returns the empty list,
discarding every entry parsed so far. -/
def network_load_proxies (lines : List String) : List ProxyEntry :=
  (parseProxyLines lines).getD []

/-- `ProxyManager._load_proxies` (src/src/yashaoxen/proxy.py): keeps every
nonempty stripped line, with no per-entry validation at all. -/
def proxymanager_load_proxies (lines : List String) : List String :=
  (lines.map pyStrip).filter (fun l => !(l == ""))

/-- C9 counterexample: the claim states a malformed entry is rejected
individually while well-formed entries are still accepted; at the concrete
input ["h:1:u:p", "bad"] the well-formed first entry parses on its own, yet
the loader returns the empty batch. -/
theorem load_proxies_claim_false :
    parseProxyLine "h:1:u:p" = some ⟨"h", "1", "u", "p"⟩ ∧
    network_load_proxies ["h:1:u:p", "bad"] = [] := by
  constructor <;> rfl

/-- Helper: one unparsable member poisons the whole parse. -/
theorem parseProxyLines_eq_none {lines : List String} {l : String}
    (hmem : l ∈ lines) (hbad : parseProxyLine l = none) :
    parseProxyLines lines = none := by
  induction lines with
  | nil => cases hmem
  | cons x xs ih =>
    rcases List.mem_cons.mp hmem with h | h
    · subst h
      simp [parseProxyLines, hbad]
    · simp [parseProxyLines, ih h]

/-- C9 amended: in `NetworkManager._load_proxies` a single malformed line is
fatal to the whole batch (the loader returns the empty list, dropping the
well-formed entries too); when every line is well-formed the batch is the list
of parsed entries; and `ProxyManager._load_proxies` performs no per-entry
rejection at all, keeping every nonempty line including malformed ones. -/
theorem load_proxies_batch_behavior (lines : List String) (bad : String)
    (hmem : bad ∈ lines) (hbad : parseProxyLine bad = none) :
    network_load_proxies lines = [] ∧
    ∀ l ∈ lines, pyStrip l ≠ "" →
      pyStrip l ∈ proxymanager_load_proxies lines := by
  constructor
  · unfold network_load_proxies
    rw [parseProxyLines_eq_none hmem hbad]
    rfl
  · intro l hl hne
    unfold proxymanager_load_proxies
    rw [List.mem_filter]
    exact ⟨List.mem_map_of_mem pyStrip hl, by simpa using hne⟩

/-- C9 amended witness: the theorem applied at the concrete batch
["h:1:u:p", "bad"]: the whole batch is dropped by the network loader while
the unvalidated loader keeps even the malformed line. -/
theorem load_proxies_batch_behavior_witness :
    network_load_proxies ["h:1:u:p", "bad"] = [] ∧
    ∀ l ∈ ["h:1:u:p", "bad"], pyStrip l ≠ "" →
      pyStrip l ∈ proxymanager_load_proxies ["h:1:u:p", "bad"] :=
  load_proxies_batch_behavior ["h:1:u:p", "bad"] "bad" (by decide) (by decide)

/-! ## Provisioning transaction: `InstanceManager.create_instance`
(src/src/lib/instance_manager.py, lines 26-56) -/

/-- The external calls `InstanceManager.create_instance` makes, in source
order: fetch a proxy, fetch a DNS server, create the container, apply
anti-detection measures, start the EarnApp service. -/
inductive ProvisionStep
  | getProxy
  | getDns
  | createContainer
  | antiDetect
  | startService
  deriving DecidableEq

/-- Which external resources a provisioning run has left allocated. -/
structure ProvisionResources where
  container : Bool
  antiDetectApplied : Bool
  serviceStarted : Bool
  deriving DecidableEq

/-- `InstanceManager.create_instance`: the steps run in order; an exception at
any step is logged and re-raised as is.  There is no teardown branch in the
function, so whatever the earlier steps allocated stays allocated.  The
injected `failAt` picks the step whose external call raises, `none` meaning a
failure-free run. -/
def create_instance (failAt : Option ProvisionStep) :
    Except ProvisionStep Unit × ProvisionResources :=
  let r0 : ProvisionResources := ⟨false, false, false⟩
  if failAt = some .getProxy then (.error .getProxy, r0)
  else if failAt = some .getDns then (.error .getDns, r0)
  else if failAt = some .createContainer then (.error .createContainer, r0)
  else
    let r1 : ProvisionResources := ⟨true, false, false⟩
    if failAt = some .antiDetect then (.error .antiDetect, r1)
    else
      let r2 : ProvisionResources := ⟨true, true, false⟩
      if failAt = some .startService then (.error .startService, r2)
      else (.ok (), ⟨true, true, true⟩)

/-- C1 counterexample: the claim states that after a create that fails at
step k, no sandbox handle remains allocated for the instance; injecting the
failure at the service-start step, the call returns an error yet the container
created at the earlier step is still allocated, and the surfaced error is the
bare step error, not a composite. -/
theorem create_instance_claim_false :
    (create_instance (some .startService)).1 = .error .startService ∧
    (create_instance (some .startService)).2.container = true ∧
    (create_instance (some .startService)).2.antiDetectApplied = true := by
  exact ⟨rfl, rfl, rfl⟩

/-- C1 amended: on failure at any step the exception is logged and re-raised
unchanged, with no teardown of the already-completed steps: exactly the
resources allocated by the steps before the failing one remain allocated
after the call returns. -/
theorem create_instance_no_rollback :
    ∀ failAt : Option ProvisionStep,
      (create_instance failAt).2 =
        match failAt with
        | some .getProxy | some .getDns | some .createContainer =>
            ⟨false, false, false⟩
        | some .antiDetect => ⟨true, false, false⟩
        | some .startService => ⟨true, true, false⟩
        | none => ⟨true, true, true⟩ := by
  intro failAt
  rcases failAt with _ | s
  · rfl
  · cases s <;> rfl

/-! ## Resource Allocator: `ProxyHandler._setup_routing`
(src/src/lib/proxy_handler.py, lines 62-81) and
`NetworkManager.setup_network_isolation` (src/src/lib/network.py,
lines 106-132) -/

/-- Python random.randint(lo, hi), both bounds inclusive, with the randomness
supplied as an explicit draw. -/
def randint (lo hi draw : Nat) : Nat := lo + draw % (hi - lo + 1)

/-- Host-side routing resources installed for one instance. -/
structure RoutingSetup where
  tableId : Nat
  fwmark : Nat
  deriving DecidableEq

/-- `ProxyHandler._setup_routing`: the routing-table id is
random.randint(100, 200); the same number is used as the fwmark in the policy
rule and the iptables MARK target.  Nothing records which ids are already in
use. -/
def setup_routing (draw : Nat) : RoutingSetup :=
  let tableId := randint 100 200 draw
  ⟨tableId, tableId⟩

/-- `NetworkManager.setup_network_isolation`: the namespace for a container is
named netns_ followed by the container id. -/
def namespaceName (containerId : String) : String :=
  "netns_" ++ containerId

/-- Two instance creations as the system performs them: each gets a namespace
named after its container id and a routing setup from its own independent
random draw. -/
def createTwoInstances (id1 id2 : String) (draw1 draw2 : Nat) :
    (String × RoutingSetup) × (String × RoutingSetup) :=
  ((namespaceName id1, setup_routing draw1),
   (namespaceName id2, setup_routing draw2))

/-- C2 counterexample: the claim states routing-table ids and packet-mark
values of distinct live instances are pairwise distinct; with the possible
draws 0 and 101 (random.randint may return 100 twice), the two distinct
instances a and b share table id 100 and mark 100. -/
theorem routing_resources_claim_false :
    (createTwoInstances "a" "b" 0 101).1.1 ≠
      (createTwoInstances "a" "b" 0 101).2.1 ∧
    (createTwoInstances "a" "b" 0 101).1.2.tableId =
      (createTwoInstances "a" "b" 0 101).2.2.tableId ∧
    (createTwoInstances "a" "b" 0 101).1.2.fwmark =
      (createTwoInstances "a" "b" 0 101).2.2.fwmark ∧
    (createTwoInstances "a" "b" 0 101).1.2.tableId = 100 := by
  refine ⟨?_, rfl, rfl, rfl⟩
  decide

/-- C2 amended: namespace names are pairwise distinct for distinct container
ids (the naming map is injective), but routing-table ids and packet-mark
values are independent uniform draws from 100..200 with no bookkeeping, so
two live instances can share them; every draw lands in 100..200. -/
theorem namespace_unique_marks_can_collide :
    (∀ a b : String, namespaceName a = namespaceName b → a = b) ∧
    (setup_routing 0).tableId = (setup_routing 101).tableId ∧
    (∀ draw : Nat, 100 ≤ (setup_routing draw).tableId ∧
      (setup_routing draw).tableId ≤ 200 ∧
      (setup_routing draw).fwmark = (setup_routing draw).tableId) := by
  refine ⟨?_, rfl, ?_⟩
  · intro a b h
    rcases a with ⟨la⟩
    rcases b with ⟨lb⟩
    have h2 : "netns_".data ++ la = "netns_".data ++ lb := by
      have := congrArg String.data h
      simpa [namespaceName, String.data_append] using this
    exact congrArg String.mk (List.append_cancel_left h2)
  · intro draw
    have hlt : draw % 101 < 101 := Nat.mod_lt _ (by decide)
    refine ⟨Nat.le_add_right _ _, ?_, rfl⟩
    simp only [setup_routing, randint]
    omega

/-- C2 amended witness: the theorem parts applied at concrete inputs: the
injectivity direction at equal names, and the bounds at draw 0. -/
theorem namespace_unique_marks_can_collide_witness :
    "c1" = "c1" ∧ 100 ≤ (setup_routing 0).tableId :=
  ⟨namespace_unique_marks_can_collide.1 "c1" "c1" rfl,
   (namespace_unique_marks_can_collide.2.2 0).1⟩

/-! ## Proxy rotation: `ContainerManager.update_container_proxy`
(src/src/yashaoxen/container.py, lines 109-135) -/

/-- A Docker container as the rotation path sees it: its runtime-assigned
handle and its environment (an association list standing for the env dict). -/
structure DockerContainer where
  handle : Nat
  env : List (String × String)
  running : Bool
  deriving DecidableEq

/-- The Docker daemon state: the containers and the next handle the runtime
will assign. -/
structure DockerState where
  containers : List DockerContainer
  nextHandle : Nat
  deriving DecidableEq

/-- Lookup of a key in the env dict. -/
def lookupEnv : List (String × String) → String → Option String
  | [], _ => none
  | (k, v) :: tl, key => if key = k then some v else lookupEnv tl key

/-- Update of one key in the env dict: the old binding goes away, the new one
is recorded. -/
def setEnv (env : List (String × String)) (key value : String) :
    List (String × String) :=
  env.filter (fun p => decide (p.1 ≠ key)) ++ [(key, value)]

/-- `ContainerManager.update_container_proxy`: look the container up (a
missing one raises NotFound, modelled as `none`), copy its env with PROXY_URL
set to the new url, run a brand-new container with that env (the runtime
assigns it the next fresh handle), then force-remove the old container, and
return the new handle. -/
def update_container_proxy (st : DockerState) (handle : Nat)
    (proxyUrl : String) : Option (DockerState × Nat) :=
  match st.containers.find? (fun c => c.handle == handle) with
  | none => none
  | some c =>
    let newC : DockerContainer :=
      { handle := st.nextHandle
        env := setEnv c.env "PROXY_URL" proxyUrl
        running := true }
    some ({ containers :=
              st.containers.filter (fun x => decide (x.handle ≠ handle)) ++
                [newC]
            nextHandle := st.nextHandle + 1 },
          st.nextHandle)

/-- C4 counterexample: the claim states rotation leaves the sandbox handle
unchanged and does not recreate the sandbox; rotating the single container
with handle 0 removes it and returns a container with the fresh handle 1. -/
theorem rotate_claim_false :
    update_container_proxy ⟨[⟨0, [("PROXY_URL", "old")], true⟩], 1⟩ 0
        "socks5://u:p@h:1" =
      some (⟨[⟨1, [("PROXY_URL", "socks5://u:p@h:1")], true⟩], 2⟩, 1) ∧
    (1 : Nat) ≠ 0 := by
  exact ⟨rfl, by decide⟩

/-- Helper: looking the updated key up in the rewritten env finds the new
value. -/
theorem lookupEnv_setEnv_self (env : List (String × String)) (k v : String) :
    lookupEnv (setEnv env k v) k = some v := by
  induction env with
  | nil => simp [setEnv, lookupEnv]
  | cons p tl ih =>
    by_cases hk : p.1 = k
    · simpa [setEnv, hk] using ih
    · have hk2 : ¬ k = p.1 := fun h => hk h.symm
      simpa [setEnv, lookupEnv, hk, hk2] using ih

/-- Helper: looking any other key up in the rewritten env is unchanged. -/
theorem lookupEnv_setEnv_other (env : List (String × String)) (k v k2 : String)
    (hne : k2 ≠ k) :
    lookupEnv (setEnv env k v) k2 = lookupEnv env k2 := by
  induction env with
  | nil => simp [setEnv, lookupEnv, hne]
  | cons p tl ih =>
    by_cases hk : p.1 = k
    · have hk3 : ¬ k2 = p.1 := by rw [hk]; exact hne
      simpa [setEnv, lookupEnv, hk, hk3, hne] using ih
    · by_cases hk3 : k2 = p.1
      · simp [setEnv, lookupEnv, hk, hk3]
      · simpa [setEnv, lookupEnv, hk, hk3] using ih

/-- C4 amended: for any daemon state whose handles are all below the next
fresh handle, rotating a present container removes the old sandbox and
creates a replacement under a new, different handle whose environment binds
PROXY_URL to the new endpoint and agrees with the old environment on every
other key; every container not under rotation is untouched.  Instance
identity is preserved only in the sense that the replacement is derived from
the old container; the sandbox itself is recreated. -/
theorem rotate_recreates_container (st : DockerState) (handle : Nat)
    (proxyUrl : String) (c : DockerContainer)
    (hfind : st.containers.find? (fun x => x.handle == handle) = some c)
    (hfresh : ∀ x ∈ st.containers, x.handle < st.nextHandle) :
    ∃ st2 : DockerState, ∃ newHandle : Nat,
      update_container_proxy st handle proxyUrl = some (st2, newHandle) ∧
      newHandle ≠ handle ∧
      (∀ x ∈ st2.containers, x.handle ≠ handle) ∧
      (∃ newC ∈ st2.containers, newC.handle = newHandle ∧
        lookupEnv newC.env "PROXY_URL" = some proxyUrl ∧
        ∀ k2 : String, k2 ≠ "PROXY_URL" →
          lookupEnv newC.env k2 = lookupEnv c.env k2) ∧
      (∀ x ∈ st.containers, x.handle ≠ handle → x ∈ st2.containers) := by
  have hc : c ∈ st.containers := List.mem_of_find?_eq_some hfind
  have hch := List.find?_some hfind
  have hch2 : c.handle = handle := by simpa using hch
  have hlt : handle < st.nextHandle := hch2 ▸ hfresh c hc
  refine ⟨⟨st.containers.filter (fun x => decide (x.handle ≠ handle)) ++
      [⟨st.nextHandle, setEnv c.env "PROXY_URL" proxyUrl, true⟩],
      st.nextHandle + 1⟩,
    st.nextHandle, ?_, ?_, ?_, ?_, ?_⟩
  · simp [update_container_proxy, hfind]
  · omega
  · intro x hx
    simp only [List.mem_append] at hx
    rcases hx with hx | hx
    · have := (List.mem_filter.mp hx).2
      simpa using this
    · simp only [List.mem_singleton] at hx
      subst hx
      simpa using Nat.ne_of_gt hlt
  · refine ⟨⟨st.nextHandle, setEnv c.env "PROXY_URL" proxyUrl, true⟩,
      by simp, rfl, lookupEnv_setEnv_self c.env _ proxyUrl, ?_⟩
    intro k2 hk2
    exact lookupEnv_setEnv_other c.env _ proxyUrl k2 hk2
  · intro x hx hne
    simp only [List.mem_append]
    exact Or.inl (List.mem_filter.mpr ⟨hx, by simpa using hne⟩)

/-- C4 amended witness: the theorem applied to a two-container daemon,
rotating the container with handle 0. -/
theorem rotate_recreates_container_witness :
    ∃ st2 : DockerState, ∃ newHandle : Nat,
      update_container_proxy
          ⟨[⟨0, [("PROXY_URL", "old"), ("TZ", "UTC")], true⟩,
            ⟨1, [("PROXY_URL", "other")], true⟩], 2⟩ 0 "socks5://h:9" =
        some (st2, newHandle) ∧
      newHandle ≠ 0 ∧
      (∀ x ∈ st2.containers, x.handle ≠ 0) ∧
      (∃ newC ∈ st2.containers, newC.handle = newHandle ∧
        lookupEnv newC.env "PROXY_URL" = some "socks5://h:9" ∧
        ∀ k2 : String, k2 ≠ "PROXY_URL" →
          lookupEnv newC.env k2 =
            lookupEnv [("PROXY_URL", "old"), ("TZ", "UTC")] k2) ∧
      (∀ x ∈ [(⟨0, [("PROXY_URL", "old"), ("TZ", "UTC")], true⟩ :
                DockerContainer),
              ⟨1, [("PROXY_URL", "other")], true⟩],
        x.handle ≠ 0 → x ∈ st2.containers) :=
  rotate_recreates_container
    ⟨[⟨0, [("PROXY_URL", "old"), ("TZ", "UTC")], true⟩,
      ⟨1, [("PROXY_URL", "other")], true⟩], 2⟩ 0 "socks5://h:9"
    ⟨0, [("PROXY_URL", "old"), ("TZ", "UTC")], true⟩ (by decide)
    (by decide)

/-! ## Teardown: `ProxyHandler.cleanup_tunnel`
(src/src/lib/proxy_handler.py, lines 131-165) and
`NetworkManager.cleanup_network_isolation` (src/src/lib/network.py,
lines 134-147) -/

/-- The failable sub-steps of `ProxyHandler.cleanup_tunnel`, in source order:
terminate and wait for the TunSocks process, delete the TUN device, parse the
table id out of the device name, delete the policy rule, delete the iptables
MARK rule, unlink the config file. -/
inductive CleanupStep
  | terminateProcess
  | deleteTunDevice
  | parseTableId
  | deletePolicyRule
  | deleteIptablesMark
  | unlinkConfig
  deriving DecidableEq

/-- The per-tunnel resources `cleanup_tunnel` is responsible for removing. -/
structure TunnelResources where
  processRunning : Bool
  tunDevice : Bool
  policyRule : Bool
  iptablesMark : Bool
  configFile : Bool
  registered : Bool
  deriving DecidableEq

/-- A fully allocated tunnel. -/
def allTunnelResources : TunnelResources := ⟨true, true, true, true, true, true⟩

/-- A fully torn-down tunnel. -/
def noTunnelResources : TunnelResources :=
  ⟨false, false, false, false, false, false⟩

/-- `ProxyHandler.cleanup_tunnel`: returns immediately when the instance is
not tracked; otherwise runs all sub-steps inside one try block.  An exception
at any sub-step skips every later sub-step, including the removal of the
active-tunnels entry, and is logged and swallowed: the function reports no
error in any case (hence the result type carries no error). -/
def cleanup_tunnel (failAt : Option CleanupStep) (r : TunnelResources) :
    TunnelResources :=
  if r.registered = false then r
  else if failAt = some .terminateProcess then r
  else
    let r1 := { r with processRunning := false }
    if failAt = some .deleteTunDevice then r1
    else
      let r2 := { r1 with tunDevice := false }
      if failAt = some .parseTableId then r2
      else if failAt = some .deletePolicyRule then r2
      else
        let r3 := { r2 with policyRule := false }
        if failAt = some .deleteIptablesMark then r3
        else
          let r4 := { r3 with iptablesMark := false }
          if failAt = some .unlinkConfig then r4
          else { r4 with configFile := false, registered := false }

/-- The resources `NetworkManager.cleanup_network_isolation` removes. -/
structure IsolationResources where
  vethPresent : Bool
  netnsPresent : Bool
  deriving DecidableEq

/-- `NetworkManager.cleanup_network_isolation`: both removals go through
os.system, which reports failure in its exit status without raising, so both
are always attempted and a failure of either is silently ignored (the except
branch deliberately does not re-raise). -/
def cleanup_network_isolation (vethDeleteFails netnsDeleteFails : Bool)
    (r : IsolationResources) : IsolationResources :=
  let r1 := if vethDeleteFails then r else { r with vethPresent := false }
  if netnsDeleteFails then r1 else { r1 with netnsPresent := false }

/-- C5 counterexample: the claim states every teardown sub-step is attempted
even when an earlier one fails and that failures are aggregated into one
reported error; when the very first sub-step (process termination) of a fully
allocated tunnel fails, the call returns with the TUN device, policy rule,
iptables mark, config file and registry entry all still in place, and no
error is reported at all. -/
theorem cleanup_claim_false :
    cleanup_tunnel (some .terminateProcess) allTunnelResources =
      allTunnelResources := by
  rfl

/-- C5 amended: in `cleanup_tunnel` the sub-steps run in one guarded block:
a failure-free run removes everything, but the first failing sub-step skips
all later sub-steps (an early tun-device failure leaves rule, mark, config
and registry entry allocated) and the failure is swallowed rather than
aggregated or reported; by contrast `cleanup_network_isolation` does attempt
its second step after a first-step failure, discarding failures silently. -/
theorem cleanup_behavior :
    (∀ r : TunnelResources, r.registered = true →
       cleanup_tunnel none r = noTunnelResources) ∧
    (∀ r : TunnelResources, r.registered = true →
       cleanup_tunnel (some .deleteTunDevice) r =
         { r with processRunning := false }) ∧
    (∀ (vethDeleteFails : Bool) (r : IsolationResources),
       (cleanup_network_isolation vethDeleteFails false r).netnsPresent =
         false) := by
  refine ⟨?_, ?_, ?_⟩
  · rintro ⟨p, t, pr, im, cf, reg⟩ h
    simp only at h
    subst h
    rfl
  · rintro ⟨p, t, pr, im, cf, reg⟩ h
    simp only at h
    subst h
    rfl
  · intro vethDeleteFails r
    cases vethDeleteFails <;> rfl

/-- C5 amended witness: the theorem applied to a fully allocated tunnel and
to a present namespace record with a failing veth removal. -/
theorem cleanup_behavior_witness :
    cleanup_tunnel none allTunnelResources = noTunnelResources ∧
    cleanup_tunnel (some .deleteTunDevice) allTunnelResources =
      { allTunnelResources with processRunning := false } ∧
    (cleanup_network_isolation true false ⟨true, true⟩).netnsPresent = false :=
  ⟨cleanup_behavior.1 allTunnelResources rfl,
   cleanup_behavior.2.1 allTunnelResources rfl,
   cleanup_behavior.2.2 true ⟨true, true⟩⟩

/-! ## Proxy Rotation Scheduler: `ProxyHandler.get_next_proxy`
(src/src/lib/proxy_handler.py, lines 171-184) and
`ProxyManager.get_next_proxy` (src/src/yashaoxen/proxy.py, lines 65-72) -/

/-- The scheduler state of `ProxyHandler`: the loaded endpoint list and the
rotation index.  Endpoints are plain strings; the class keeps no health or
quarantine state for them. -/
structure ProxyHandlerState where
  proxies : List String
  currentIndex : Nat
  deriving DecidableEq

/-- `ProxyHandler.get_next_proxy`: raises ValueError when the list is empty
(re-raised by the logging handler); otherwise returns the endpoint at the
current index and advances the index modulo the list length. -/
def get_next_proxy (st : ProxyHandlerState) :
    Except String (String × ProxyHandlerState) :=
  if st.proxies.isEmpty then .error "No proxies available"
  else
    match st.proxies.get? st.currentIndex with
    | none => .error "IndexError"
    | some p =>
        .ok (p, ⟨st.proxies, (st.currentIndex + 1) % st.proxies.length⟩)

/-- `ProxyManager.get_next_proxy` (src/src/yashaoxen/proxy.py): returns None
(ok none) when the list is empty instead of raising; otherwise the same
round-robin step. -/
def proxymanager_get_next_proxy (proxies : List String)
    (currentIndex : Nat) : Except String (Option (String × Nat)) :=
  if proxies.isEmpty then .ok none
  else
    match proxies.get? currentIndex with
    | none => .error "IndexError"
    | some p => .ok (some (p, (currentIndex + 1) % proxies.length))

/-- C6 counterexample: the claim states next() skips quarantined endpoints
and fails exactly when every endpoint is quarantined; the scheduler state has
no quarantine information, and with every endpoint marked quarantined by an
external health assignment it still returns the first endpoint instead of
failing, so no quarantine assignment can make the claim true. -/
theorem get_next_proxy_claim_false :
    ¬ (∀ (quarantined : String → Bool) (st : ProxyHandlerState) (p : String)
        (st2 : ProxyHandlerState),
        get_next_proxy st = .ok (p, st2) → quarantined p = false) := by
  intro h
  have := h (fun _ => true) ⟨["p1", "p2"], 0⟩ "p1" ⟨["p1", "p2"], 1⟩ rfl
  simp at this

/-- C6 amended: next() is a plain round-robin over the whole loaded list with
no quarantine or health state: it fails exactly when the list is empty
(ValueError in `ProxyHandler`, a None return in `ProxyManager`), and on a
nonempty list it returns the endpoint at the current index, quarantined or
not, advancing the index modulo the length. -/
theorem get_next_proxy_round_robin (st : ProxyHandlerState) :
    (st.proxies.isEmpty = true →
       get_next_proxy st = .error "No proxies available") ∧
    (∀ h : st.currentIndex < st.proxies.length,
       get_next_proxy st = .ok (st.proxies.get ⟨st.currentIndex, h⟩,
         ⟨st.proxies, (st.currentIndex + 1) % st.proxies.length⟩)) ∧
    (∀ (proxies : List String) (i : Nat),
       proxymanager_get_next_proxy proxies i = .ok none ↔
         proxies.isEmpty = true) := by
  refine ⟨?_, ?_, ?_⟩
  · intro h
    simp [get_next_proxy, h]
  · intro h
    have hne : st.proxies.isEmpty = false := by
      cases hp : st.proxies with
      | nil => rw [hp] at h; cases h.not_le (Nat.zero_le _)
      | cons a tl => simp [hp]
    simp [get_next_proxy, hne, List.getElem?_eq_getElem h]
  · intro proxies i
    constructor
    · intro h
      by_contra hne
      have hne2 : proxies.isEmpty = false := by
        cases hp : proxies.isEmpty
        · rfl
        · exact absurd hp hne
      rw [proxymanager_get_next_proxy, hne2] at h
      simp only [Bool.false_eq_true, if_false] at h
      cases hg : proxies.get? i <;> rw [hg] at h <;> simp at h
    · intro h
      simp [proxymanager_get_next_proxy, h]

/-- C6 amended witness: the theorem applied at the concrete state with list
["a", "b"] and index 1: the call returns endpoint "b" and wraps the index to
0; and the ProxyManager variant at the empty list returns None. -/
theorem get_next_proxy_round_robin_witness :
    get_next_proxy ⟨["a", "b"], 1⟩ =
      .ok (["a", "b"].get ⟨1, by decide⟩, ⟨["a", "b"], (1 + 1) % 2⟩) ∧
    (proxymanager_get_next_proxy [] 0 = .ok none ↔
      List.isEmpty ([] : List String) = true) :=
  ⟨(get_next_proxy_round_robin ⟨["a", "b"], 1⟩).2.1 (by decide),
   (get_next_proxy_round_robin ⟨["a", "b"], 1⟩).2.2 [] 0⟩

/-! ## Validate-before-bind: `YashCore.start_all`
(src/src/yashaoxen/core.py, lines 84-111) and `ProxyHandler._load_proxies`
(src/src/lib/proxy_handler.py, lines 206-233) -/

/-- `YashCore.start_all`: for each instance number i below the configured
count, the candidate proxy is proxies[i % len] (None when no proxies are
loaded); a truthy candidate that fails verification makes the loop skip the
instance; otherwise the container is created bound to the candidate.  A
binding is the 1-based instance number (from which the name instance_i is
formatted) with the bound endpoint. -/
def start_all (proxies : List String) (verify : String → Bool)
    (numInstances : Nat) : List (Nat × Option String) :=
  (List.range numInstances).filterMap (fun i =>
    if proxies.isEmpty then some (i + 1, none)
    else
      let p := proxies.getD (i % proxies.length) ""
      if !(p == "") && !(verify p) then none
      else some (i + 1, some p))

/-- `ProxyHandler._load_proxies`: the nonempty stripped lines are validated
one by one and only the validated ones are kept; if none survive, the load
raises ValueError. -/
def handler_load_proxies (validate : String → Bool) (lines : List String) :
    Except String (List String) :=
  if (((lines.map pyStrip).filter (fun l => !(l == ""))).filter
      validate).isEmpty then
    .error "No valid proxies found in file"
  else .ok (((lines.map pyStrip).filter (fun l => !(l == ""))).filter validate)

/-- C7: validation happens before binding.  Every binding `start_all`
produces carries either no endpoint or an endpoint that passed verification
in the same iteration (the empty string is the only untruthy endpoint value
and cannot be loaded, per the second part); and every endpoint the
`ProxyHandler` loader hands to `create_instance` passed validation at load
time.  So an instance is never bound to an endpoint known to be unreachable
or quarantined. -/
theorem bindings_verified_before_bind :
    (∀ (proxies : List String) (verify : String → Bool)
       (numInstances inst : Nat) (p : String),
       (inst, some p) ∈ start_all proxies verify numInstances →
       p = "" ∨ verify p = true) ∧
    (∀ (validate : String → Bool) (lines ps : List String),
       handler_load_proxies validate lines = .ok ps →
       ∀ p ∈ ps, validate p = true ∧ p ≠ "") := by
  constructor
  · intro proxies verify numInstances inst p hmem
    rcases List.mem_filterMap.mp hmem with ⟨i, _, hf⟩
    by_cases hp : proxies.isEmpty
    · simp [hp] at hf
    · simp only [hp, if_false, Bool.false_eq_true] at hf
      rcases hb : !(proxies.getD (i % proxies.length) "" == "") &&
          !(verify (proxies.getD (i % proxies.length) "")) with _ | _
      · rw [hb] at hf
        simp only [if_false, Bool.false_eq_true, Option.some.injEq,
          Prod.mk.injEq, Option.some.injEq] at hf
        rcases hf with ⟨_, hpv⟩
        subst hpv
        rcases Bool.and_eq_false_iff.mp hb with hb2 | hb2
        · left
          simpa using hb2
        · right
          simpa using hb2
      · rw [hb] at hf
        simp at hf
  · intro validate lines ps hload p hmem
    unfold handler_load_proxies at hload
    rcases hempty : (((lines.map pyStrip).filter
        (fun l => !(l == ""))).filter validate).isEmpty with _ | _
    · rw [hempty] at hload
      simp only [Bool.false_eq_true, if_false, Except.ok.injEq] at hload
      subst hload
      have h1 := List.mem_filter.mp hmem
      have h2 := List.mem_filter.mp h1.1
      exact ⟨h1.2, by simpa using h2.2⟩
    · rw [hempty] at hload
      simp at hload

/-- C7 witness: the theorem applied to a run of two instances over the
endpoints ["good", "bad"] with a verifier accepting only "good": the produced
binding of instance 1 to "good" is verified, and a loader run keeping only
"v" yields validated nonempty endpoints. -/
theorem bindings_verified_before_bind_witness :
    ("good" = "" ∨ (fun s => s == "good") "good" = true) ∧
    ∀ p ∈ ["v"], (fun s => s == "v") p = true ∧ p ≠ "" :=
  ⟨bindings_verified_before_bind.1 ["good", "bad"] (fun s => s == "good")
      2 1 "good" (by decide),
   bindings_verified_before_bind.2 (fun s => s == "v") ["v", "x"] ["v"] rfl⟩

end YashaoXen
